import Mathlib

/-!
Verification of the ansipix audio playback engine (`ansipix/audio_player.py`).

The module is shallowly embedded: bytes are `Nat`, the decode process's
stdout pipe is a `List Nat` (a `read n` returns up to `n` bytes, i.e. a
`take`/`drop` pair), external-tool outcomes (ffprobe, ffmpeg spawn, device
open, exceptions during cleanup) are explicit environment values, and the
`AudioPlayer` object's mutable attributes form a `PlayerState` record.
Logging is pure diagnostics in the source and is not modelled; likewise the
ALSA backend auto-configuration only writes an environment variable and a
private field that no other code path reads.
-/

namespace Ansipix

/-- miniaudio sample formats (the source uses `SampleFormat.SIGNED16`). -/
inductive SampleFormat
  | unsigned8
  | signed16
  | signed24
  | signed32
  | float32
deriving DecidableEq

/-- Handle to the spawned ffmpeg decode process: the `-ac`/`-ar` arguments it
was launched with, and the remaining content of its stdout pipe. -/
structure ProcHandle where
  ac : Nat
  ar : Nat
  pipe : List Nat
deriving DecidableEq

/-- Handle to the opened miniaudio `PlaybackDevice`: the constructor
arguments `output_format`, `nchannels`, `sample_rate`. -/
structure DeviceHandle where
  output_format : SampleFormat
  nchannels : Nat
  sample_rate : Nat
deriving DecidableEq

/-- The mutable attributes of an `AudioPlayer` instance.
`thread` is `none` before `start()` and `some alive` afterwards. -/
structure PlayerState where
  audio_available : Bool
  proc : Option ProcHandle
  device : Option DeviceHandle
  thread : Option Bool
  stop_event : Bool
  audio_channels : Nat
  audio_sample_rate : Nat
  has_audio : Bool
deriving DecidableEq

/-- `AudioPlayer.__init__`: fresh state with defaults 2 channels, 44100 Hz,
no audio detected, no handles, stop event clear. -/
def init (available : Bool) : PlayerState :=
  { audio_available := available
    proc := none
    device := none
    thread := none
    stop_event := false
    audio_channels := 2
    audio_sample_rate := 44100
    has_audio := false }

/-! ## Frame Supply Adapter: the `audio_stream` generator -/

/-- One pull of the `audio_stream` generator body: compute
`required_bytes = required_frames * channels * 2`, read up to that many
bytes from the pipe, and pad with zero bytes when the read came up short.
Returns the yielded chunk and the remaining pipe content. -/
def audio_stream_pull (channels : Nat) (pipe : List Nat) (required_frames : Nat) :
    List Nat × List Nat :=
  let sample_width := 2
  let required_bytes := required_frames * channels * sample_width
  let chunk := pipe.take required_bytes
  let actual_len := chunk.length
  let chunk :=
    if actual_len < required_bytes then
      chunk ++ List.replicate (required_bytes - actual_len) 0
    else chunk
  (chunk, pipe.drop required_bytes)

/-- A run of the generator's `while not self.stop_event.is_set()` loop:
`reqs` is the sequence of frame counts sent in by the device, `stopFlag k`
tells whether the stop event is set when the loop condition is checked for
the `k`-th time. Returns the list of yielded chunks. -/
def audio_stream_run (channels : Nat) (stopFlag : Nat → Bool) :
    List Nat → List Nat → Nat → List (List Nat)
  | _pipe, [], _k => []
  | pipe, req :: reqs, k =>
    if stopFlag k then []
    else
      let p := audio_stream_pull channels pipe req
      p.1 :: audio_stream_run channels stopFlag p.2 reqs (k + 1)

/-! ## Stream Prober: `_detect_audio_params` -/

/-- A JSON field of the first stream object as the Python code sees it:
absent (so `stream.get` supplies the default), a value `int()` accepts,
or a value on which `int()` raises. -/
inductive JField
  | missing
  | num (n : Nat)
  | nonNumeric
deriving DecidableEq

/-- The fields of `info['streams'][0]` that the code consumes. -/
structure StreamInfo where
  channels : JField
  sample_rate : JField
deriving DecidableEq

/-- How the ffprobe invocation turns out, as distinguished by the code's
exception handlers: non-zero exit (`CalledProcessError`), binary absent
(`FileNotFoundError`), unparsable stdout (`JSONDecodeError`), JSON without
a `streams` key (`KeyError`), or a parsed `streams` array. -/
inductive FfprobeOutcome
  | procError
  | toolAbsent
  | badJson
  | noStreamsField
  | parsed (streams : List StreamInfo)
deriving DecidableEq

/-- `int(stream.get(key, default))`: `none` means `int()` raised. -/
def parseIntField : JField → Nat → Option Nat
  | .missing, d => some d
  | .num n, _ => some n
  | .nonNumeric, _ => none

/-- `AudioPlayer._detect_audio_params`. Mirrors the source statement by
statement: on any exception or an empty `streams` array it returns `False`
leaving the state as it stood at the point the exception was raised; on a
non-empty array it sets `has_audio = True` first, then parses `channels`,
then `sample_rate`, so a failing `int()` leaves the earlier writes in
place. -/
def detect_audio_params (st : PlayerState) (out : FfprobeOutcome) :
    Bool × PlayerState :=
  match out with
  | .procError => (false, st)
  | .toolAbsent => (false, st)
  | .badJson => (false, st)
  | .noStreamsField => (false, st)
  | .parsed [] => (false, st)
  | .parsed (stream :: _) =>
    let st1 := { st with has_audio := true }
    match parseIntField stream.channels 2 with
    | none => (false, st1)
    | some ch =>
      let st2 := { st1 with audio_channels := ch }
      match parseIntField stream.sample_rate 44100 with
      | none => (false, st2)
      | some sr => (true, { st2 with audio_sample_rate := sr })

/-- The channel count and sample rate a probe outcome yields when detection
succeeds; `none` exactly when `_detect_audio_params` returns `False`. -/
def probed_params : FfprobeOutcome → Option (Nat × Nat)
  | .parsed (stream :: _) =>
    match parseIntField stream.channels 2 with
    | none => none
    | some ch =>
      match parseIntField stream.sample_rate 44100 with
      | none => none
      | some sr => some (ch, sr)
  | _ => none

/-- The probe outcomes on which `_detect_audio_params` bails out before
reading any stream entry: ffprobe error or absence, unparsable output, no
`streams` key, or an empty `streams` array. -/
def probe_fails_before_stream : FfprobeOutcome → Bool
  | .procError => true
  | .toolAbsent => true
  | .badJson => true
  | .noStreamsField => true
  | .parsed [] => true
  | .parsed (_ :: _) => false

/-! ## Decode Process Manager: `_start_ffmpeg` -/

/-- How the ffmpeg spawn turns out: binary absent (`FileNotFoundError`
before `self.proc` is assigned), some other exception during `Popen`, or a
spawned process with its immediate `poll()` result and the content its
stdout pipe will deliver. -/
inductive FfmpegOutcome
  | toolAbsent
  | spawnError
  | spawned (exitedEarly : Bool) (pipe : List Nat)
deriving DecidableEq

/-- `AudioPlayer._start_ffmpeg`: launch ffmpeg with `-ac audio_channels`
`-ar audio_sample_rate`, fail if `poll()` shows an early exit (the handle
is still assigned in that case), then perform the 1024-byte test read
(consuming the start of the pipe; an all-zero test chunk is only logged). -/
def start_ffmpeg (st : PlayerState) (out : FfmpegOutcome) : Bool × PlayerState :=
  match out with
  | .toolAbsent => (false, st)
  | .spawnError => (false, st)
  | .spawned exitedEarly pipe =>
    let st1 := { st with
      proc := some ⟨st.audio_channels, st.audio_sample_rate, pipe⟩ }
    if exitedEarly then (false, st1)
    else
      (true, { st with
        proc := some ⟨st.audio_channels, st.audio_sample_rate, pipe.drop 1024⟩ })

/-! ## Lifecycle: `_cleanup`, `stop`, `start`, `_playback_loop` -/

/-- The nondeterminism inside `_cleanup`: whether `device.stop()`/`close()`
raises, and whether `proc.wait(timeout=2)` returns before the timeout. -/
structure CleanupEnv where
  device_stop_raises : Bool
  proc_exits_in_time : Bool
deriving DecidableEq

/-- The externally visible release calls `_cleanup` can make, in order. -/
inductive CleanupAction
  | deviceStop
  | deviceClose
  | procTerminate
  | procWait2
  | procKill
deriving DecidableEq

/-- The `if self.proc:` block of `_cleanup`: `terminate()`, `wait(timeout=2)`,
and `kill()` on `TimeoutExpired`; the handle is cleared either way. -/
def cleanup_proc (st : PlayerState) (env : CleanupEnv)
    (acc : List CleanupAction) : PlayerState × List CleanupAction :=
  match st.proc with
  | none => (st, acc)
  | some _ =>
    if env.proc_exits_in_time then
      ({ st with proc := none }, acc ++ [.procTerminate, .procWait2])
    else
      ({ st with proc := none }, acc ++ [.procTerminate, .procWait2, .procKill])

/-- `AudioPlayer._cleanup`. Both blocks sit in one `try`: if
`device.stop()` raises, the exception is caught at the bottom and the
process block never runs (and the device handle is not cleared). -/
def cleanup (st : PlayerState) (env : CleanupEnv) :
    PlayerState × List CleanupAction :=
  match st.device with
  | none => cleanup_proc st env []
  | some _ =>
    if env.device_stop_raises then
      (st, [.deviceStop])
    else
      cleanup_proc { st with device := none } env [.deviceStop, .deviceClose]

/-- What `stop()` returns to its analysis: the final state, whether a live
thread was joined, and the release calls made by its `_cleanup`. -/
structure StopResult where
  final : PlayerState
  joined : Bool
  actions : List CleanupAction
deriving DecidableEq

/-- `AudioPlayer.stop`: set the stop event, join the thread when one is
alive (a bounded join with no effect on the attributes modelled here),
then call `_cleanup` unconditionally. -/
def stop (st : PlayerState) (env : CleanupEnv) : StopResult :=
  let st1 := { st with stop_event := true }
  let joined := match st1.thread with
    | some alive => alive
    | none => false
  let p := cleanup st1 env
  ⟨p.1, joined, p.2⟩

/-- `AudioPlayer.start`: `False` immediately when miniaudio is
unavailable; otherwise spawn the playback thread and return `True`. -/
def start (st : PlayerState) : Bool × PlayerState :=
  if st.audio_available = false then (false, st)
  else (true, { st with thread := some true })

/-- Everything external that one `_playback_loop` run can observe. -/
structure LoopEnv where
  probe : FfprobeOutcome
  ffmpeg : FfmpegOutcome
  device_open_fails : Bool
  cleanup_env : CleanupEnv
deriving DecidableEq

/-- Trace of one `_playback_loop` run: the final state, the release calls
of the `finally`-block `_cleanup`, the decode-process handle as assigned
during the run, and the `PlaybackDevice` as constructed during the run. -/
structure LoopResult where
  final : PlayerState
  actions : List CleanupAction
  launched_proc : Option ProcHandle
  opened_device : Option DeviceHandle
deriving DecidableEq

/-- `AudioPlayer._playback_loop`. The `audio_available` early return sits
before the `try`, so it alone skips `_cleanup`; every path inside the
`try` (no audio stream, ffmpeg failure, device-open exception, or the
streaming phase ending) reaches the `finally` block's `_cleanup`. The
device is constructed with `SIGNED16`, `nchannels = audio_channels`,
`sample_rate = audio_sample_rate`. -/
def playback_loop (st : PlayerState) (env : LoopEnv) : LoopResult :=
  if st.audio_available = false then ⟨st, [], none, none⟩
  else
    let d := detect_audio_params st env.probe
    if d.1 = false then
      let c := cleanup d.2 env.cleanup_env
      ⟨c.1, c.2, none, none⟩
    else
      let f := start_ffmpeg d.2 env.ffmpeg
      if f.1 = false then
        let c := cleanup f.2 env.cleanup_env
        ⟨c.1, c.2, f.2.proc, none⟩
      else if env.device_open_fails then
        let c := cleanup f.2 env.cleanup_env
        ⟨c.1, c.2, f.2.proc, none⟩
      else
        let dev : DeviceHandle :=
          ⟨.signed16, f.2.audio_channels, f.2.audio_sample_rate⟩
        let c := cleanup { f.2 with device := some dev } env.cleanup_env
        ⟨c.1, c.2, f.2.proc, some dev⟩

/-- `start()` followed by the spawned thread's `_playback_loop` (the loop
runs only when a thread was actually spawned). -/
def session_start (st : PlayerState) (env : LoopEnv) : Bool × LoopResult :=
  let p := start st
  if p.1 then (p.1, playback_loop p.2 env)
  else (p.1, ⟨p.2, [], none, none⟩)

/-! ## Claims about the Frame Supply Adapter -/

/-- Claim C1: every pull requesting `n` frames yields exactly
`n * channels * 2` bytes — the bytes actually read from the pipe followed
by zero bytes up to the required length, never fewer and never more. -/
theorem pull_returns_exact_length (channels : Nat) (pipe : List Nat) (n : Nat) :
    (audio_stream_pull channels pipe n).1.length = n * channels * 2 ∧
    (audio_stream_pull channels pipe n).1 =
      pipe.take (n * channels * 2) ++
        List.replicate
          (n * channels * 2 - (pipe.take (n * channels * 2)).length) 0 := by
  constructor
  · simp only [audio_stream_pull]
    split
    · simp only [List.length_append, List.length_take, List.length_replicate]
      omega
    · simp only [List.length_take] at *
      omega
  · simp only [audio_stream_pull]
    split
    · rfl
    · next h =>
      have hz : n * channels * 2 - (pipe.take (n * channels * 2)).length = 0 := by
        simp only [List.length_take] at h ⊢
        omega
      rw [hz]
      simp

/-- Claim C2: once the pipe is exhausted, a pull of `n` frames returns
`n * channels * 2` zero bytes and leaves the pipe exhausted (so all
subsequent pulls do the same), and every chunk a generator run yields from
an exhausted pipe is all zeros; the pull is a total function, so it
neither blocks nor raises. -/
theorem pull_after_exhaustion_all_zero :
    (∀ channels n, audio_stream_pull channels [] n =
        (List.replicate (n * channels * 2) 0, [])) ∧
    (∀ channels stopFlag reqs k chunk,
        chunk ∈ audio_stream_run channels stopFlag [] reqs k →
        ∀ b ∈ chunk, b = 0) := by
  have hpull : ∀ channels n, audio_stream_pull channels [] n =
      (List.replicate (n * channels * 2) 0, []) := by
    intro channels n
    simp [audio_stream_pull]
    intro h
    omega
  refine ⟨hpull, ?_⟩
  intro channels stopFlag reqs
  induction reqs with
  | nil => intro k chunk h; simp [audio_stream_run] at h
  | cons req reqs ih =>
    intro k chunk h
    rw [audio_stream_run] at h
    by_cases hs : stopFlag k
    · simp [hs] at h
    · simp only [hs, if_false, hpull] at h
      rcases List.mem_cons.mp h with h1 | h2
      · intro b hb
        subst h1
        exact List.eq_of_mem_replicate hb
      · exact ih (k + 1) chunk h2

/-- Witness for C2 at a concrete run: one request of 1 frame on 1 channel
from an exhausted pipe yields the chunk `[0, 0]`, whose bytes are zero. -/
theorem pull_after_exhaustion_all_zero_witness :
    (List.replicate 2 0 ∈ audio_stream_run 1 (fun _ => false) [] [1] 0) ∧
      (0 : Nat) = 0 :=
  ⟨by decide,
    pull_after_exhaustion_all_zero.2 1 (fun _ => false) [1] 0
      (List.replicate 2 0) (by decide) 0 (by decide)⟩

/-! ## Claims about the lifecycle -/

/-- Claim C3: `start()` returns `False` exactly when miniaudio is
unavailable and `True` as soon as the thread is spawned; the return value
does not depend on the environment (probe, ffmpeg launch, device opening)
the background loop will encounter. -/
theorem start_returns_availability (st : PlayerState) (env env' : LoopEnv) :
    (session_start st env).1 = st.audio_available ∧
    (session_start st env).1 = (session_start st env').1 ∧
    (start st).2 =
      (if st.audio_available = true then { st with thread := some true }
       else st) := by
  cases h : st.audio_available <;>
    simp [session_start, start, h]

/-- Claim C6: `stop()` on a session never started joins no thread,
performs no release call, and leaves all handles unset (the only change
is that the stop event becomes set). -/
theorem stop_before_start_noop (avail : Bool) (env : CleanupEnv) :
    stop (init avail) env =
      ⟨{ init avail with stop_event := true }, false, []⟩ ∧
    (stop (init avail) env).final.proc = none ∧
    (stop (init avail) env).final.device = none ∧
    (stop (init avail) env).final.thread = none := by
  refine ⟨?_, ?_, ?_, ?_⟩ <;> rfl

/-! ## Helper lemmas (shared across claims) -/

/-- `_detect_audio_params` returns `True` exactly when the probe outcome
yields a parameter pair. -/
theorem detect_fst_eq (st : PlayerState) (out : FfprobeOutcome) :
    (detect_audio_params st out).1 = (probed_params out).isSome := by
  cases out with
  | procError => rfl
  | toolAbsent => rfl
  | badJson => rfl
  | noStreamsField => rfl
  | parsed streams =>
    cases streams with
    | nil => rfl
    | cons s rest =>
      cases hc : parseIntField s.channels 2 <;>
        cases hr : parseIntField s.sample_rate 44100 <;>
          simp [detect_audio_params, probed_params, hc, hr]

/-- `_detect_audio_params` only writes the probe fields, never the
handles, the stop event or the availability flag. -/
theorem detect_preserves (st : PlayerState) (out : FfprobeOutcome) :
    (detect_audio_params st out).2.proc = st.proc ∧
    (detect_audio_params st out).2.device = st.device ∧
    (detect_audio_params st out).2.thread = st.thread ∧
    (detect_audio_params st out).2.stop_event = st.stop_event ∧
    (detect_audio_params st out).2.audio_available = st.audio_available := by
  cases out with
  | procError => exact ⟨rfl, rfl, rfl, rfl, rfl⟩
  | toolAbsent => exact ⟨rfl, rfl, rfl, rfl, rfl⟩
  | badJson => exact ⟨rfl, rfl, rfl, rfl, rfl⟩
  | noStreamsField => exact ⟨rfl, rfl, rfl, rfl, rfl⟩
  | parsed streams =>
    cases streams with
    | nil => exact ⟨rfl, rfl, rfl, rfl, rfl⟩
    | cons s rest =>
      cases hc : parseIntField s.channels 2 <;>
        cases hr : parseIntField s.sample_rate 44100 <;>
          simp [detect_audio_params, hc, hr]

/-- `_cleanup` on a state with neither device nor process is a no-op. -/
theorem cleanup_no_handles (st : PlayerState) (env : CleanupEnv)
    (h1 : st.device = none) (h2 : st.proc = none) :
    cleanup st env = (st, []) := by
  simp [cleanup, cleanup_proc, h1, h2]

/-- Setting an already-set stop event changes nothing. -/
theorem set_stop_event_id (st : PlayerState) (h : st.stop_event = true) :
    { st with stop_event := true } = st := by
  cases st
  simp_all

/-- The background loop on a detection failure: it only runs `_cleanup`
on the post-probe state, spawning nothing and opening nothing. -/
theorem loop_no_audio (st : PlayerState) (env : LoopEnv)
    (hav : st.audio_available = true)
    (hfst : (detect_audio_params st env.probe).1 = false)
    (hdev : st.device = none) (hproc : st.proc = none) :
    playback_loop st env =
      ⟨(detect_audio_params st env.probe).2, [], none, none⟩ := by
  have hp := detect_preserves st env.probe
  have hclean := cleanup_no_handles (detect_audio_params st env.probe).2
      env.cleanup_env (hp.2.1.trans hdev) (hp.1.trans hproc)
  rw [playback_loop]
  simp [hav, hfst, hclean]

/-! ## Claims C4 and C5 -/

/-- Claim C4: when the probe reports no usable audio stream, `start()` has
returned `True` but the background unit exits without ever assigning a
decode-process handle or constructing a playback device. -/
theorem no_audio_stream_no_resources (env : LoopEnv)
    (h : probed_params env.probe = none) :
    (session_start (init true) env).1 = true ∧
    (session_start (init true) env).2.final.proc = none ∧
    (session_start (init true) env).2.final.device = none ∧
    (session_start (init true) env).2.launched_proc = none ∧
    (session_start (init true) env).2.opened_device = none := by
  have hfst : (detect_audio_params
      { init true with thread := some true } env.probe).1 = false := by
    rw [detect_fst_eq, h]
    rfl
  have hp := detect_preserves { init true with thread := some true } env.probe
  have hloop := loop_no_audio { init true with thread := some true } env
    rfl hfst rfl rfl
  have hrun : session_start (init true) env =
      (true, playback_loop { init true with thread := some true } env) := rfl
  rw [hrun, hloop]
  exact ⟨rfl, hp.1, hp.2.1, rfl, rfl⟩

/-- Witness for C4: a probe reporting an empty `streams` array. -/
theorem no_audio_stream_no_resources_witness :
    probed_params (FfprobeOutcome.parsed []) = none ∧
    (session_start (init true)
        ⟨FfprobeOutcome.parsed [], FfmpegOutcome.toolAbsent, false,
          ⟨false, false⟩⟩).1 = true ∧
    (session_start (init true)
        ⟨FfprobeOutcome.parsed [], FfmpegOutcome.toolAbsent, false,
          ⟨false, false⟩⟩).2.final.proc = none :=
  ⟨rfl,
    (no_audio_stream_no_resources
      ⟨FfprobeOutcome.parsed [], FfmpegOutcome.toolAbsent, false,
        ⟨false, false⟩⟩ rfl).1,
    (no_audio_stream_no_resources
      ⟨FfprobeOutcome.parsed [], FfmpegOutcome.toolAbsent, false,
        ⟨false, false⟩⟩ rfl).2.1⟩

/-- Counterexample to C5 as stated: with a stream entry whose `channels`
field is non-numeric, detection fails but `has_audio` is left `True`
(it is assigned before the `int()` call raises); and with a parsed channel
count of 3 and a non-numeric `sample_rate`, the channel count is left at 3
rather than the default 2. -/
theorem detect_nonnumeric_leaves_has_audio :
    (detect_audio_params (init true)
        (FfprobeOutcome.parsed [⟨JField.nonNumeric, JField.missing⟩])).2.has_audio
      = true ∧
    (detect_audio_params (init true)
        (FfprobeOutcome.parsed [⟨JField.num 3, JField.nonNumeric⟩])).2.audio_channels
      = 3 := by
  constructor <;> rfl

/-- Claim C5 as amended: when the probe fails before reading a stream
entry (utility absent, non-zero exit, unparsable output, missing `streams`
key, or zero audio streams), the parameters stay at `hasAudio = false`,
`channelCount = 2`, `sampleRate = 44100`; but when a stream entry exists
and a numeric field is non-numeric, detection reports failure while
`has_audio` has already been set `True` and the channel count keeps any
value parsed before the failure. -/
theorem detect_failure_defaults (avail : Bool) (out : FfprobeOutcome)
    (s : StreamInfo) (rest : List StreamInfo) :
    (probe_fails_before_stream out = true →
      detect_audio_params (init avail) out = (false, init avail)) ∧
    (s.channels = JField.nonNumeric →
      detect_audio_params (init avail) (.parsed (s :: rest)) =
        (false, { init avail with has_audio := true })) ∧
    (∀ ch, s.channels = JField.num ch → s.sample_rate = JField.nonNumeric →
      detect_audio_params (init avail) (.parsed (s :: rest)) =
        (false, { init avail with has_audio := true, audio_channels := ch })) := by
  refine ⟨?_, ?_, ?_⟩
  · intro h
    cases out with
    | procError => rfl
    | toolAbsent => rfl
    | badJson => rfl
    | noStreamsField => rfl
    | parsed streams =>
      cases streams with
      | nil => rfl
      | cons s' rest' => simp [probe_fails_before_stream] at h
  · intro h
    simp [detect_audio_params, h, parseIntField]
  · intro ch h1 h2
    simp [detect_audio_params, h1, h2, parseIntField]

/-- Witness for the amended C5: a failing ffprobe run keeps the defaults,
and a non-numeric `channels` field leaves `has_audio` set. -/
theorem detect_failure_defaults_witness :
    probe_fails_before_stream FfprobeOutcome.procError = true ∧
    detect_audio_params (init true) FfprobeOutcome.procError =
      (false, init true) ∧
    detect_audio_params (init true)
        (FfprobeOutcome.parsed [⟨JField.nonNumeric, JField.missing⟩]) =
      (false, { init true with has_audio := true }) :=
  ⟨rfl,
    (detect_failure_defaults true FfprobeOutcome.procError
      ⟨JField.nonNumeric, JField.missing⟩ []).1 rfl,
    (detect_failure_defaults true FfprobeOutcome.procError
      ⟨JField.nonNumeric, JField.missing⟩ []).2.1 rfl⟩

/-! ## More helper lemmas -/

/-- The process block of `_cleanup` never touches the stop event. -/
theorem cleanup_stop_event (st : PlayerState) (env : CleanupEnv) :
    (cleanup st env).1.stop_event = st.stop_event := by
  cases hd : st.device <;> cases hp : st.proc <;>
    by_cases hr : env.device_stop_raises <;>
      by_cases he : env.proc_exits_in_time <;>
        simp [cleanup, cleanup_proc, hd, hp, hr, he]

/-- When no exception interrupts it, `_cleanup` clears both handles. -/
theorem cleanup_clears (st : PlayerState) (env : CleanupEnv)
    (h : env.device_stop_raises = false) :
    (cleanup st env).1.device = none ∧ (cleanup st env).1.proc = none := by
  cases hd : st.device <;> cases hp : st.proc <;>
    by_cases he : env.proc_exits_in_time <;>
      simp [cleanup, cleanup_proc, hd, hp, h, he]

/-- `_start_ffmpeg` never touches the stop event. -/
theorem ffmpeg_stop_event (st : PlayerState) (out : FfmpegOutcome) :
    (start_ffmpeg st out).2.stop_event = st.stop_event := by
  cases out with
  | toolAbsent => rfl
  | spawnError => rfl
  | spawned e pipe => cases e <;> rfl

/-- `_start_ffmpeg` on success: the launch arguments are exactly the
state's channel count and sample rate, and those fields are unchanged. -/
theorem ffmpeg_success_state (st : PlayerState) (out : FfmpegOutcome)
    (h : (start_ffmpeg st out).1 = true) :
    (start_ffmpeg st out).2.audio_channels = st.audio_channels ∧
    (start_ffmpeg st out).2.audio_sample_rate = st.audio_sample_rate ∧
    (start_ffmpeg st out).2.proc.map ProcHandle.ac = some st.audio_channels ∧
    (start_ffmpeg st out).2.proc.map ProcHandle.ar = some st.audio_sample_rate := by
  cases out with
  | toolAbsent => simp [start_ffmpeg] at h
  | spawnError => simp [start_ffmpeg] at h
  | spawned e pipe =>
    cases e with
    | true => simp [start_ffmpeg] at h
    | false => exact ⟨rfl, rfl, rfl, rfl⟩

/-- On successful detection the state's channel count and sample rate are
exactly the probed pair. -/
theorem detect_success_params (st : PlayerState) (out : FfprobeOutcome)
    (h : (detect_audio_params st out).1 = true) :
    probed_params out =
      some ((detect_audio_params st out).2.audio_channels,
        (detect_audio_params st out).2.audio_sample_rate) := by
  cases out with
  | procError => simp [detect_audio_params] at h
  | toolAbsent => simp [detect_audio_params] at h
  | badJson => simp [detect_audio_params] at h
  | noStreamsField => simp [detect_audio_params] at h
  | parsed streams =>
    cases streams with
    | nil => simp [detect_audio_params] at h
    | cons s rest =>
      cases hc : parseIntField s.channels 2 <;>
        cases hr : parseIntField s.sample_rate 44100 <;>
          simp_all [detect_audio_params, probed_params]

/-- The background loop never modifies the stop event. -/
theorem loop_stop_event (st : PlayerState) (env : LoopEnv) :
    (playback_loop st env).final.stop_event = st.stop_event := by
  rw [playback_loop]
  by_cases hav : st.audio_available = false
  · simp [hav]
  · by_cases h1 : (detect_audio_params st env.probe).1 = false
    · simp [hav, h1, cleanup_stop_event, (detect_preserves st env.probe).2.2.2.1]
    · by_cases h2 :
          (start_ffmpeg (detect_audio_params st env.probe).2 env.ffmpeg).1 = false
      · simp [hav, h1, h2, cleanup_stop_event, ffmpeg_stop_event,
          (detect_preserves st env.probe).2.2.2.1]
      · by_cases h3 : env.device_open_fails = true
        · simp [hav, h1, h2, h3, cleanup_stop_event, ffmpeg_stop_event,
            (detect_preserves st env.probe).2.2.2.1]
        · simp [hav, h1, h2, h3, cleanup_stop_event, ffmpeg_stop_event,
            (detect_preserves st env.probe).2.2.2.1]

/-! ## Claims C7, C8, C9, C10 -/

/-- Claim C7: after one `stop()` whose cleanup was not interrupted by a
device exception, both handles are `None`; a second `stop()` makes no
release call and returns the state exactly as the first left it. -/
theorem stop_idempotent (st : PlayerState) (env1 env2 : CleanupEnv)
    (h : env1.device_stop_raises = false) :
    (stop st env1).final.device = none ∧
    (stop st env1).final.proc = none ∧
    (stop (stop st env1).final env2).actions = [] ∧
    (stop (stop st env1).final env2).final = (stop st env1).final := by
  have hc := cleanup_clears { st with stop_event := true } env1 h
  have hd : (stop st env1).final.device = none := hc.1
  have hp : (stop st env1).final.proc = none := hc.2
  have hs : (stop st env1).final.stop_event = true := by
    show (cleanup { st with stop_event := true } env1).1.stop_event = true
    rw [cleanup_stop_event]
  have heq : { (stop st env1).final with stop_event := true } =
      (stop st env1).final := set_stop_event_id _ hs
  refine ⟨hd, hp, ?_, ?_⟩
  · show (cleanup { (stop st env1).final with stop_event := true } env2).2 = []
    rw [heq, cleanup_no_handles _ env2 hd hp]
  · show (cleanup { (stop st env1).final with stop_event := true } env2).1 =
      (stop st env1).final
    rw [heq, cleanup_no_handles _ env2 hd hp]

/-- Witness for C7 at a session holding both handles. -/
theorem stop_idempotent_witness :
    (⟨false, true⟩ : CleanupEnv).device_stop_raises = false ∧
    (stop { init true with
        device := some ⟨SampleFormat.signed16, 2, 44100⟩,
        proc := some ⟨2, 44100, []⟩, thread := some false }
      ⟨false, true⟩).final.device = none ∧
    (stop (stop { init true with
        device := some ⟨SampleFormat.signed16, 2, 44100⟩,
        proc := some ⟨2, 44100, []⟩, thread := some false }
      ⟨false, true⟩).final ⟨true, false⟩).actions = [] :=
  ⟨rfl,
    (stop_idempotent { init true with
        device := some ⟨SampleFormat.signed16, 2, 44100⟩,
        proc := some ⟨2, 44100, []⟩, thread := some false }
      ⟨false, true⟩ ⟨true, false⟩ rfl).1,
    (stop_idempotent { init true with
        device := some ⟨SampleFormat.signed16, 2, 44100⟩,
        proc := some ⟨2, 44100, []⟩, thread := some false }
      ⟨false, true⟩ ⟨true, false⟩ rfl).2.2.1⟩

/-- Claim C8 as amended: on any teardown with the decode-process handle
set, provided stopping/closing the device does not raise, `_cleanup`
performs the full terminate sequence — `terminate()`, `wait(timeout=2)`,
`kill()` when the wait times out — and clears the handle; the `stop()`
teardown routes through exactly this `_cleanup`. An exception while
stopping or closing the device aborts `_cleanup` before the process block
runs, so that path performs no terminate (see the counterexample). -/
theorem cleanup_runs_terminate_sequence (st : PlayerState) (env : CleanupEnv)
    (hp : st.proc.isSome = true) (hd : env.device_stop_raises = false) :
    (cleanup st env).2 =
      (if st.device.isSome then
        [CleanupAction.deviceStop, CleanupAction.deviceClose]
      else []) ++
        ([CleanupAction.procTerminate, CleanupAction.procWait2] ++
          (if env.proc_exits_in_time then [] else [CleanupAction.procKill])) ∧
    (cleanup st env).1.proc = none ∧
    (stop st env).actions = (cleanup { st with stop_event := true } env).2 := by
  refine ⟨?_, (cleanup_clears st env hd).2, rfl⟩
  cases hdev : st.device <;> cases hpr : st.proc <;>
    by_cases he : env.proc_exits_in_time <;>
      simp_all [cleanup, cleanup_proc]

/-- Witness for the amended C8: a device-less teardown with a live
process that exits within the timeout. -/
theorem cleanup_runs_terminate_sequence_witness :
    ({ init true with proc := some ⟨2, 44100, []⟩ } : PlayerState).proc.isSome
      = true ∧
    (cleanup { init true with proc := some ⟨2, 44100, []⟩ }
        ⟨false, true⟩).2 =
      [CleanupAction.procTerminate, CleanupAction.procWait2] := by
  refine ⟨by decide, ?_⟩
  rw [(cleanup_runs_terminate_sequence
    { init true with proc := some ⟨2, 44100, []⟩ } ⟨false, true⟩
    (by decide) (by decide)).1]
  decide

/-- Counterexample to C8 as stated: on the `stop()` teardown path with
both handles set, an exception in `device.stop()` aborts `_cleanup`
before the process block — no terminate is sent, no bounded wait and no
kill happen, and the decode-process handle survives. -/
theorem stop_device_raise_skips_terminate :
    (stop { init true with
        device := some ⟨SampleFormat.signed16, 2, 44100⟩,
        proc := some ⟨2, 44100, []⟩ } ⟨true, true⟩).actions =
      [CleanupAction.deviceStop] ∧
    CleanupAction.procTerminate ∉
      (stop { init true with
          device := some ⟨SampleFormat.signed16, 2, 44100⟩,
          proc := some ⟨2, 44100, []⟩ } ⟨true, true⟩).actions ∧
    (stop { init true with
        device := some ⟨SampleFormat.signed16, 2, 44100⟩,
        proc := some ⟨2, 44100, []⟩ } ⟨true, true⟩).final.proc =
      some ⟨2, 44100, []⟩ :=
  ⟨rfl, by decide, rfl⟩

/-- Claim C9: whenever a run reaches device opening, the device is opened
with 16-bit signed PCM and exactly the probed channel count and sample
rate, and the decode process was launched with exactly those same two
values. -/
theorem device_params_match_probe (st : PlayerState) (env : LoopEnv)
    (d : DeviceHandle) (h : (playback_loop st env).opened_device = some d) :
    d.output_format = SampleFormat.signed16 ∧
    probed_params env.probe = some (d.nchannels, d.sample_rate) ∧
    ((playback_loop st env).launched_proc).map ProcHandle.ac =
      some d.nchannels ∧
    ((playback_loop st env).launched_proc).map ProcHandle.ar =
      some d.sample_rate := by
  by_cases hav : st.audio_available = false
  · rw [playback_loop] at h
    simp [hav] at h
  by_cases h1 : (detect_audio_params st env.probe).1 = false
  · rw [playback_loop] at h
    simp [hav, h1] at h
  by_cases h2 :
      (start_ffmpeg (detect_audio_params st env.probe).2 env.ffmpeg).1 = false
  · rw [playback_loop] at h
    simp [hav, h1, h2] at h
  by_cases h3 : env.device_open_fails = true
  · rw [playback_loop] at h
    simp [hav, h1, h2, h3] at h
  have hloop2 : (playback_loop st env).opened_device =
      some ⟨SampleFormat.signed16,
        (start_ffmpeg (detect_audio_params st env.probe).2
          env.ffmpeg).2.audio_channels,
        (start_ffmpeg (detect_audio_params st env.probe).2
          env.ffmpeg).2.audio_sample_rate⟩ ∧
      (playback_loop st env).launched_proc =
        (start_ffmpeg (detect_audio_params st env.probe).2 env.ffmpeg).2.proc := by
    rw [playback_loop]
    simp [hav, h1, h2, h3]
  have h1t : (detect_audio_params st env.probe).1 = true := by
    cases hb : (detect_audio_params st env.probe).1 with
    | false => exact absurd hb h1
    | true => rfl
  have h2t :
      (start_ffmpeg (detect_audio_params st env.probe).2 env.ffmpeg).1 = true := by
    cases hb : (start_ffmpeg (detect_audio_params st env.probe).2 env.ffmpeg).1 with
    | false => exact absurd hb h2
    | true => rfl
  have hdp := detect_success_params st env.probe h1t
  have hff := ffmpeg_success_state (detect_audio_params st env.probe).2
    env.ffmpeg h2t
  rw [hloop2.1] at h
  injection h with h'
  subst h'
  refine ⟨rfl, ?_, ?_, ?_⟩
  · show probed_params env.probe =
      some ((start_ffmpeg (detect_audio_params st env.probe).2
          env.ffmpeg).2.audio_channels,
        (start_ffmpeg (detect_audio_params st env.probe).2
          env.ffmpeg).2.audio_sample_rate)
    rw [hff.1, hff.2.1]
    exact hdp
  · show ((playback_loop st env).launched_proc).map ProcHandle.ac =
      some (start_ffmpeg (detect_audio_params st env.probe).2
        env.ffmpeg).2.audio_channels
    rw [hloop2.2, hff.1]
    exact hff.2.2.1
  · show ((playback_loop st env).launched_proc).map ProcHandle.ar =
      some (start_ffmpeg (detect_audio_params st env.probe).2
        env.ffmpeg).2.audio_sample_rate
    rw [hloop2.2, hff.2.1]
    exact hff.2.2.2

/-- Witness for C9: a stereo 44.1 kHz probe on a run that opens the
device. -/
theorem device_params_match_probe_witness :
    (playback_loop (init true)
        ⟨FfprobeOutcome.parsed [⟨JField.num 2, JField.num 44100⟩],
          FfmpegOutcome.spawned false [], false, ⟨false, true⟩⟩).opened_device =
      some ⟨SampleFormat.signed16, 2, 44100⟩ ∧
    probed_params (FfprobeOutcome.parsed [⟨JField.num 2, JField.num 44100⟩]) =
      some (2, 44100) :=
  ⟨rfl,
    (device_params_match_probe (init true)
      ⟨FfprobeOutcome.parsed [⟨JField.num 2, JField.num 44100⟩],
        FfmpegOutcome.spawned false [], false, ⟨false, true⟩⟩
      ⟨SampleFormat.signed16, 2, 44100⟩ rfl).2.1⟩

/-- Claim C10: the stop event is monotone — `stop()` sets it and no other
operation modifies it, so no operation ever clears it — and the generator
loop with the stop event set at every check yields no chunks, so a
stopped session never produces audio again. -/
theorem stop_event_monotone_and_silences (st : PlayerState)
    (envC : CleanupEnv) (envL : LoopEnv) (out : FfprobeOutcome)
    (fo : FfmpegOutcome) (channels k : Nat) (pipe reqs : List Nat) :
    (stop st envC).final.stop_event = true ∧
    (start st).2.stop_event = st.stop_event ∧
    (detect_audio_params st out).2.stop_event = st.stop_event ∧
    (start_ffmpeg st fo).2.stop_event = st.stop_event ∧
    (cleanup st envC).1.stop_event = st.stop_event ∧
    (playback_loop st envL).final.stop_event = st.stop_event ∧
    audio_stream_run channels (fun _ => true) pipe reqs k = [] := by
  refine ⟨?_, ?_, (detect_preserves st out).2.2.2.1, ffmpeg_stop_event st fo,
    cleanup_stop_event st envC, loop_stop_event st envL, ?_⟩
  · show (cleanup { st with stop_event := true } envC).1.stop_event = true
    rw [cleanup_stop_event]
  · by_cases hav : st.audio_available = false <;> simp [start, hav]
  · cases reqs <;> rfl

end Ansipix
